import Mathlib

/-!
Verification of the physics/collision/camera core of the tiny platformer
(`src/tiny_platformer_react_canvas_game.jsx`).

JavaScript numbers are modelled as exact rationals (`ℚ`).  The embedding
follows the source line by line: `integrate` is the kinematic-integrator part
of `update` (lines 206-238), `resolveStep` is the per-platform body of the
`resolveCollisions` loop (lines 112-166), `resolveCollisions` adds the
broad-phase filter (lines 107-110), `update` composes them with the
position-overwrite post-step (lines 241-254), and `cameraUpdate` is the camera
follower (lines 256-259).
-/

namespace TinyPlatformer

/-- A platform rectangle, world coordinates, y growing downward. -/
structure Platform where
  x : ℚ
  y : ℚ
  w : ℚ
  h : ℚ
deriving DecidableEq

/-- The player state (`player.current` in the source). -/
structure Player where
  x : ℚ
  y : ℚ
  w : ℚ
  h : ℚ
  vx : ℚ
  vy : ℚ
  onGround : Bool
  facing : ℤ
deriving DecidableEq

/-- The polled input snapshot (`inputRef.current` in the source). -/
structure Input where
  left : Bool
  right : Bool
  jump : Bool
  jumpPressed : Bool
deriving DecidableEq

/-- The all-false input snapshot (no key held, no edge pending). -/
def noInput : Input := ⟨false, false, false, false⟩

/-- Input snapshot holding only the right key. -/
def rightInput : Input := ⟨false, true, false, false⟩

def GRAVITY : ℚ := 2000
def MOVE_ACCEL : ℚ := 3000
def MOVE_MAX : ℚ := 260
def FRICTION : ℚ := 1800
def JUMP_VEL : ℚ := 720
def TILE : ℚ := 48

/-- The level layout (`platforms` ref in the source, lines 23-32). -/
def platforms : List Platform :=
  [⟨-400, 400, 1600, TILE⟩,
   ⟨200, 320, TILE * 3, TILE / 2⟩,
   ⟨520, 260, TILE * 2, TILE / 2⟩,
   ⟨760, 300, TILE * 2, TILE / 2⟩,
   ⟨1040, 240, TILE * 3, TILE / 2⟩,
   ⟨1350, 340, TILE * (5 / 2), TILE / 2⟩]

/-- The mutable locals `(nx, ny, vx, vy, onGround)` of `resolveCollisions`. -/
structure ResolveResult where
  nx : ℚ
  ny : ℚ
  vx : ℚ
  vy : ℚ
  onGround : Bool
deriving DecidableEq

/-- Landing branch of the collision loop (source lines 114-127): previous
bottom at or above the platform top, tentative next bottom at or below it,
horizontal overlap via the current `nx`. -/
def landStep (pw ph dt px py : ℚ) (p : Platform) (st : ResolveResult) : ResolveResult :=
  if st.nx + pw > p.x ∧ st.nx < p.x + p.w ∧ py + ph ≤ p.y ∧ st.ny + ph + st.vy * dt ≥ p.y
  then { st with ny := p.y - ph, vy := 0, onGround := true }
  else st

/-- Head-bump branch (source lines 129-140): previous top at or below the
platform bottom, tentative next top at or above it, horizontal overlap. -/
def bumpStep (pw ph dt px py : ℚ) (p : Platform) (st : ResolveResult) : ResolveResult :=
  if st.nx + pw > p.x ∧ st.nx < p.x + p.w ∧ py ≥ p.y + p.h ∧ st.ny + st.vy * dt ≤ p.y + p.h
  then { st with ny := p.y + p.h, vy := 0 }
  else st

/-- Horizontal branches (source lines 142-165): left-side block then
right-side block, with `nextRight`/`nextLeft` computed once before both. -/
def sideSteps (pw ph dt px py : ℚ) (p : Platform) (st : ResolveResult) : ResolveResult :=
  let nextRight := st.nx + pw + st.vx * dt
  let nextLeft := st.nx + st.vx * dt
  let st1 :=
    if py + ph > p.y ∧ py < p.y + p.h ∧ px + pw ≤ p.x ∧ nextRight > p.x
    then { st with nx := p.x - pw, vx := 0 }
    else st
  if py + ph > p.y ∧ py < p.y + p.h ∧ px ≥ p.x + p.w ∧ nextLeft < p.x + p.w
  then { st1 with nx := p.x + p.w, vx := 0 }
  else st1

/-- One iteration of the `for (const p of nearby)` loop (source lines 112-166). -/
def resolveStep (pw ph dt px py : ℚ) (p : Platform) (st : ResolveResult) : ResolveResult :=
  sideSteps pw ph dt px py p (bumpStep pw ph dt px py p (landStep pw ph dt px py p st))

/-- Broad-phase predicate (source lines 108-110): platform center within 400
units of the actor's previous position on both axes. -/
def nearPlayer (px py : ℚ) (p : Platform) : Bool :=
  if |px - (p.x + p.w / 2)| < 400 ∧ |py - (p.y + p.h / 2)| < 400 then true else false

/-- Collision resolution, `resolveCollisions` in the source (lines 102-169):
filter to nearby platforms,
then fold the per-platform resolution over them, starting from the previous
position, the tentative velocities, and `onGround := false`. -/
def resolveCollisions (plats : List Platform) (pw ph dt px py vx vy : ℚ) : ResolveResult :=
  ((plats.filter fun p => nearPlayer px py p).foldl
    (fun st p => resolveStep pw ph dt px py p st) ⟨px, py, vx, vy, false⟩)

/-- Following the spec's words for the refinement claim: the identical
resolution loop run exhaustively over all platforms, with no broad-phase
filter. -/
def resolveCollisionsExhaustive (plats : List Platform) (pw ph dt px py vx vy : ℚ) :
    ResolveResult :=
  (plats.foldl (fun st p => resolveStep pw ph dt px py p st) ⟨px, py, vx, vy, false⟩)

/-- Kinematic-integrator part of `update` (source lines 206-234): horizontal
control, speed clamp, gravity, edge-triggered jump.  Positions are untouched
here; `update` computes the tentative positions from the result. -/
def integrate (inp : Input) (dt : ℚ) (p0 : Player) : Player :=
  let p1 :=
    if inp.left = true ∧ inp.right = false then
      { p0 with vx := p0.vx - MOVE_ACCEL * dt, facing := -1 }
    else if inp.right = true ∧ inp.left = false then
      { p0 with vx := p0.vx + MOVE_ACCEL * dt, facing := 1 }
    else if p0.onGround = true then
      (if p0.vx > 0 then { p0 with vx := max 0 (p0.vx - FRICTION * dt) }
       else if p0.vx < 0 then { p0 with vx := min 0 (p0.vx + FRICTION * dt) }
       else p0)
    else { p0 with vx := p0.vx * (999 / 1000) }
  let p2 := { p1 with vx := max (-MOVE_MAX) (min MOVE_MAX p1.vx) }
  let p3 := { p2 with vy := p2.vy + GRAVITY * dt }
  if inp.jumpPressed = true ∧ p3.onGround = true then
    { p3 with vy := -JUMP_VEL, onGround := false }
  else p3

/-- Per-tick update, `update` in the source (lines 201-254, camera
excluded): integrate, compute
tentative positions, resolve collisions from the previous position and the
tentative velocities, then the position-overwrite post-step (lines 248-254). -/
def update (plats : List Platform) (inp : Input) (dt : ℚ) (p0 : Player) : Player :=
  let p := integrate inp dt p0
  let nx := p.x + p.vx * dt
  let ny := p.y + p.vy * dt
  let res := resolveCollisions plats p.w p.h dt p.x p.y p.vx p.vy
  let q := { p with x := res.nx, y := res.ny, vx := res.vx, vy := res.vy,
                    onGround := res.onGround }
  let q2 := if q.onGround = false ∧ |ny - q.y| > 1 / 100 then { q with y := ny } else q
  if |nx - q2.x| > 1 / 100 then { q2 with x := nx } else q2

/-- One whole tick: the updated player together with the input snapshot after
the unconditional `input.jumpPressed = false` consumption (source line 234). -/
def tick (plats : List Platform) (inp : Input) (dt : ℚ) (p : Player) : Player × Input :=
  (update plats inp dt p, { inp with jumpPressed := false })

/-- Fold `update` over a sequence of per-tick inputs and time deltas. -/
def runTicks (plats : List Platform) (steps : List (Input × ℚ)) (p : Player) : Player :=
  steps.foldl (fun q s => update plats s.1 s.2 q) p

/-- Camera target (source line 257): actor center minus the 320-unit lead. -/
def camTarget (p : Player) : ℚ := p.x + p.w / 2 - 320

/-- Camera follower step (source line 258). -/
def cameraUpdate (p : Player) (dt cx : ℚ) : ℚ :=
  cx + (camTarget p - cx) * min 1 (10 * dt)

/-- Camera position after `n` ticks with a stationary actor. -/
def camSeq (p : Player) (dt c0 : ℚ) (n : ℕ) : ℚ :=
  (cameraUpdate p dt)^[n] c0

/-! ## Helper lemmas -/

lemma clamp_abs_le (v : ℚ) : |max (-MOVE_MAX) (min MOVE_MAX v)| ≤ MOVE_MAX := by
  rw [abs_le]
  refine ⟨le_max_left _ _, max_le ?_ (min_le_left _ _)⟩
  norm_num [MOVE_MAX]

lemma integrate_vx_clamped (inp : Input) (dt : ℚ) (p : Player) :
    |(integrate inp dt p).vx| ≤ MOVE_MAX := by
  simp only [integrate, apply_ite Player.vx, ite_self]
  exact clamp_abs_le _

lemma resolveStep_vy_cases (pw ph dt px py : ℚ) (p : Platform) (st : ResolveResult) :
    (resolveStep pw ph dt px py p st).vy = st.vy ∨ (resolveStep pw ph dt px py p st).vy = 0 := by
  simp only [resolveStep, sideSteps, bumpStep, landStep]
  split_ifs <;> simp

lemma foldResolve_vy_cases (pw ph dt px py : ℚ) (l : List Platform) (st : ResolveResult) :
    (l.foldl (fun s p => resolveStep pw ph dt px py p s) st).vy = st.vy ∨
      (l.foldl (fun s p => resolveStep pw ph dt px py p s) st).vy = 0 := by
  induction l generalizing st with
  | nil => simp
  | cons p l ih =>
    simp only [List.foldl_cons]
    rcases ih (resolveStep pw ph dt px py p st) with h | h
    · rcases resolveStep_vy_cases pw ph dt px py p st with h2 | h2
      · exact Or.inl (h.trans h2)
      · exact Or.inr (h.trans h2)
    · exact Or.inr h

lemma resolveStep_ground_vy (pw ph dt px py : ℚ) (p : Platform) (st : ResolveResult)
    (h : st.onGround = true → st.vy = 0) :
    (resolveStep pw ph dt px py p st).onGround = true →
      (resolveStep pw ph dt px py p st).vy = 0 := by
  simp only [resolveStep, sideSteps, bumpStep, landStep]
  split_ifs <;> simp_all

lemma foldResolve_ground_vy (pw ph dt px py : ℚ) (l : List Platform) (st : ResolveResult)
    (h : st.onGround = true → st.vy = 0) :
    (l.foldl (fun s p => resolveStep pw ph dt px py p s) st).onGround = true →
      (l.foldl (fun s p => resolveStep pw ph dt px py p s) st).vy = 0 := by
  induction l generalizing st with
  | nil => exact h
  | cons p l ih =>
    simp only [List.foldl_cons]
    exact ih _ (resolveStep_ground_vy pw ph dt px py p st h)

lemma update_vy_onGround (plats : List Platform) (inp : Input) (dt : ℚ) (p0 : Player) :
    (update plats inp dt p0).vy =
        (resolveCollisions plats (integrate inp dt p0).w (integrate inp dt p0).h dt
          (integrate inp dt p0).x (integrate inp dt p0).y (integrate inp dt p0).vx
          (integrate inp dt p0).vy).vy ∧
      (update plats inp dt p0).onGround =
        (resolveCollisions plats (integrate inp dt p0).w (integrate inp dt p0).h dt
          (integrate inp dt p0).x (integrate inp dt p0).y (integrate inp dt p0).vx
          (integrate inp dt p0).vy).onGround := by
  simp only [update]
  split_ifs <;> exact ⟨rfl, rfl⟩

lemma integrate_vy_no_jump (inp : Input) (dt : ℚ) (p : Player)
    (hj : inp.jumpPressed = false) :
    (integrate inp dt p).vy = p.vy + GRAVITY * dt := by
  simp [integrate, hj, apply_ite Player.vy, ite_self]

/-! ## Claims -/

/-- C1: the claim says a head bump (rising into a platform's underside, with
no landing firing) ends the tick with the actor's top exactly on the
platform's bottom and `vy = 0`.  The collision loop does snap
`ny = p.y + p.h` and zero `vy`, but the post-step at source lines 248-251
overwrites `y` with the integrated position whenever `onGround` is false and
the two differ by more than `0.01` — and a head bump never sets `onGround` —
so the snap is destroyed.  At the concrete input below (platform
`{x:0,y:100,w:100,h:48}`, actor `{x:10,y:150,w:28,h:44,vx:0,vy:-300}`,
`dt = 1/60`, no input) the head-bump condition holds, no landing fires, yet
the final `y` is the integrated `1310/9`, not the snapped
`platform.y + platform.h = 148`; `vy` is still zeroed.  This contradicts the
source's own comment "If no vertical collision occurred, use integrated
positions": a head bump is a vertical collision, yet the integrated position
is used. -/
theorem c1_head_bump_snap_overwritten :
    ((resolveCollisions [⟨0, 100, 100, 48⟩] 28 44 (1 / 60) 10 150 0 (-800 / 3)).ny =
          100 + 48 ∧
        (resolveCollisions [⟨0, 100, 100, 48⟩] 28 44 (1 / 60) 10 150 0 (-800 / 3)).vy = 0 ∧
        (resolveCollisions [⟨0, 100, 100, 48⟩] 28 44 (1 / 60) 10 150 0
            (-800 / 3)).onGround = false) ∧
      (update [⟨0, 100, 100, 48⟩] noInput (1 / 60)
            ⟨10, 150, 28, 44, 0, -300, false, 1⟩).y = 1310 / 9 ∧
      (update [⟨0, 100, 100, 48⟩] noInput (1 / 60)
            ⟨10, 150, 28, 44, 0, -300, false, 1⟩).vy = 0 ∧
      (update [⟨0, 100, 100, 48⟩] noInput (1 / 60)
            ⟨10, 150, 28, 44, 0, -300, false, 1⟩).onGround = false ∧
      ¬ (update [⟨0, 100, 100, 48⟩] noInput (1 / 60)
            ⟨10, 150, 28, 44, 0, -300, false, 1⟩).y = 100 + 48 := by
  norm_num [update, integrate, resolveCollisions, resolveStep, landStep, bumpStep,
    sideSteps, nearPlayer, noInput, rightInput, platforms, GRAVITY, MOVE_ACCEL, MOVE_MAX,
    FRICTION, JUMP_VEL, TILE, abs, max_def, min_def, List.filter, List.foldl]

/-- C2 counterexample: the claimed scenario (platform set
`{x:0,y:400,w:1600,h:48}`, actor `{x:100,y:352,w:28,h:44,vx:0,vy:0}`, one
tick at `dt = 1/60`, no input) does NOT yield `onGround = true`, `vy = 0`,
`y = 356`: the actor starts 4 units above the platform, and the platform's
center `x = 800` is 700 units from the actor's `x = 100`, so the broad-phase
filter discards it entirely; the tick yields `onGround = false`,
`vy = 100/3`, `y = 3173/9`. -/
theorem c2_scenario_false :
    let r := update [⟨0, 400, 1600, 48⟩] noInput (1 / 60) ⟨100, 352, 28, 44, 0, 0, true, 1⟩
    ¬ (r.onGround = true ∧ r.vy = 0 ∧ r.y = 356) := by
  norm_num [update, integrate, resolveCollisions, resolveStep, landStep, bumpStep,
    sideSteps, nearPlayer, noInput, rightInput, platforms, GRAVITY, MOVE_ACCEL, MOVE_MAX,
    FRICTION, JUMP_VEL, TILE, abs, max_def, min_def, List.filter, List.foldl]

/-- C3 counterexample: with the source's own platform list, previous pose
`(px, py) = (900, 356)` (standing on the ground platform, whose center
`x = 400` is 500 units away), `vx = 0`, tentative `vy = 100/3`,
`dt = 1/60`, the broad-phase filter discards the ground platform while the
exhaustive loop lands on it, so the two resolutions differ (`onGround` is
`false` with the filter, `true` without). -/
theorem c3_filter_changes_behavior :
    ¬ resolveCollisions platforms 28 44 (1 / 60) 900 356 0 (100 / 3) =
        resolveCollisionsExhaustive platforms 28 44 (1 / 60) 900 356 0 (100 / 3) := by
  norm_num [resolveCollisions, resolveCollisionsExhaustive, resolveStep, landStep, bumpStep,
    sideSteps, nearPlayer, platforms, TILE, abs, max_def, min_def, List.filter, List.foldl,
    ResolveResult.mk.injEq]

/-- C4 counterexample: platform `{x:138,y:300,w:100,h:48}`, actor
`{x:100,y:320,w:28,h:44}` (right edge `128`, exactly 10 units left of the
platform's left face, vertical extents overlapping), moving right with
`vx = 200` after the integrator (initial `vx = 150` plus right-input
acceleration `3000/60`), `dt = 1/60`.  The tentative right edge advances
only `10/3` units, so the left-side block does not fire: the tick ends with
`x = 310/3` (right edge `310/3 + 28 = 394/3 ≈ 131.3`, not at the platform's
left edge `138 - 28 = 110`) and `vx = 200`, not `0`. -/
theorem c4_scenario_false :
    let r := update [⟨138, 300, 100, 48⟩] rightInput (1 / 60)
        ⟨100, 320, 28, 44, 150, -100 / 3, false, 1⟩
    ¬ (r.x = 138 - 28 ∧ r.vx = 0) := by
  norm_num [update, integrate, resolveCollisions, resolveStep, landStep, bumpStep,
    sideSteps, nearPlayer, noInput, rightInput, platforms, GRAVITY, MOVE_ACCEL, MOVE_MAX,
    FRICTION, JUMP_VEL, TILE, abs, max_def, min_def, List.filter, List.foldl]

/-- C5 counterexample: `dt = 0` is not a velocity no-op: with no input and
the actor airborne, the airborne damping `vx *= 0.999` is applied regardless
of `dt`, so `vx = 100` becomes `999/10`. -/
theorem c5_dt_zero_not_noop :
    (update [] noInput 0 ⟨0, 0, 28, 44, 100, 0, false, 1⟩).vx ≠ 100 := by
  norm_num [update, integrate, resolveCollisions, resolveStep, landStep, bumpStep,
    sideSteps, nearPlayer, noInput, rightInput, platforms, GRAVITY, MOVE_ACCEL, MOVE_MAX,
    FRICTION, JUMP_VEL, TILE, abs, max_def, min_def, List.filter, List.foldl]

/-- C6: on every tick the jump-edge flag is consumed (the input after `tick`
has `jumpPressed = false`, source line 234), so a press while airborne never
launches later; and when `jumpPressed` and `onGround` both hold, the
integrator step sets `vy` to exactly `-720` (an assignment, overriding the
gravity increment applied just before) and clears `onGround`. -/
theorem c6_jump_edge (plats : List Platform) (inp : Input) (dt : ℚ) (p : Player) :
    (tick plats inp dt p).2.jumpPressed = false ∧
      (inp.jumpPressed = true → p.onGround = true →
        (integrate inp dt p).vy = -JUMP_VEL ∧ (integrate inp dt p).onGround = false) := by
  refine ⟨rfl, fun hjp hg => ?_⟩
  unfold integrate
  split_ifs with h1 h2 h3 h4 h5 <;> simp_all

/-- C6 witness: at a concrete grounded pose with a pending jump edge, the
integrator yields `vy = -720` with `onGround` cleared, and the tick consumes
the edge flag. -/
theorem c6_jump_edge_witness :
    (tick platforms ⟨false, false, true, true⟩ (1 / 60)
        ⟨100, 356, 28, 44, 0, 0, true, 1⟩).2.jumpPressed = false ∧
      (integrate ⟨false, false, true, true⟩ (1 / 60)
          ⟨100, 356, 28, 44, 0, 0, true, 1⟩).vy = -JUMP_VEL ∧
      (integrate ⟨false, false, true, true⟩ (1 / 60)
          ⟨100, 356, 28, 44, 0, 0, true, 1⟩).onGround = false := by
  obtain ⟨h1, h2⟩ := c6_jump_edge platforms ⟨false, false, true, true⟩ (1 / 60)
    ⟨100, 356, 28, 44, 0, 0, true, 1⟩
  exact ⟨h1, h2 rfl rfl⟩

/-- C7: for every starting pose with `|vx| ≤ 260`, every sequence of input
snapshots and time deltas, and every further tick, the horizontal speed
right after the integrator step never exceeds `maxSpeed = 260` in absolute
value (the clamp at source line 224 enforces it unconditionally). -/
theorem c7_speed_clamp (plats : List Platform) (steps : List (Input × ℚ)) (p : Player)
    (hvx : |p.vx| ≤ MOVE_MAX) (inp : Input) (dt : ℚ) :
    |(integrate inp dt (runTicks plats steps p)).vx| ≤ MOVE_MAX :=
  integrate_vx_clamped inp dt (runTicks plats steps p)

/-- C7 witness: a concrete run (two ticks of hard right input) keeps the
post-integrator speed within the clamp. -/
theorem c7_speed_clamp_witness :
    |(⟨100, 356, 28, 44, 0, 0, true, 1⟩ : Player).vx| ≤ MOVE_MAX ∧
      |(integrate rightInput (1 / 60)
          (runTicks platforms [(rightInput, 1 / 60), (rightInput, 1 / 60)]
            ⟨100, 356, 28, 44, 0, 0, true, 1⟩)).vx| ≤ MOVE_MAX :=
  ⟨by norm_num [MOVE_MAX],
   c7_speed_clamp platforms [(rightInput, 1 / 60), (rightInput, 1 / 60)]
     ⟨100, 356, 28, 44, 0, 0, true, 1⟩ (by norm_num [MOVE_MAX]) rightInput (1 / 60)⟩

/-- C8: for every airborne pose with no input and `dt > 0`, one `update` tick
either adds exactly `gravityAccel * dt` to `vy` (a strict increase, so `vy`
grows tick over tick with no terminal-velocity cap) or a vertical collision
zeroed it. -/
theorem c8_gravity_monotone (plats : List Platform) (inp : Input) (dt : ℚ) (p : Player)
    (hair : p.onGround = false) (hdt : 0 < dt)
    (hl : inp.left = false) (hr : inp.right = false) (hj : inp.jumpPressed = false) :
    ((update plats inp dt p).vy = p.vy + GRAVITY * dt ∧ p.vy < (update plats inp dt p).vy) ∨
      (update plats inp dt p).vy = 0 := by
  have hvy := (update_vy_onGround plats inp dt p).1
  have hint := integrate_vy_no_jump inp dt p hj
  rw [resolveCollisions] at hvy
  rcases foldResolve_vy_cases (integrate inp dt p).w (integrate inp dt p).h dt
      (integrate inp dt p).x (integrate inp dt p).y
      ((plats.filter fun q => nearPlayer (integrate inp dt p).x (integrate inp dt p).y q))
      ⟨(integrate inp dt p).x, (integrate inp dt p).y, (integrate inp dt p).vx,
        (integrate inp dt p).vy, false⟩ with h | h
  · left
    have hv : (update plats inp dt p).vy = p.vy + GRAVITY * dt := by
      rw [hvy, h, hint]
    refine ⟨hv, ?_⟩
    rw [hv]
    have : 0 < GRAVITY * dt := by
      have : (0 : ℚ) < GRAVITY := by norm_num [GRAVITY]
      positivity
    linarith
  · right
    rw [hvy, h]

/-- C8 witness: a concrete airborne fall (no platforms nearby) gains exactly
`2000 / 60` of downward velocity in one tick. -/
theorem c8_gravity_monotone_witness :
    ((⟨0, 0, 28, 44, 0, 50, false, 1⟩ : Player).onGround = false ∧ (0 : ℚ) < 1 / 60 ∧
        noInput.left = false ∧ noInput.right = false ∧ noInput.jumpPressed = false) ∧
      (((update [] noInput (1 / 60) ⟨0, 0, 28, 44, 0, 50, false, 1⟩).vy =
            (⟨0, 0, 28, 44, 0, 50, false, 1⟩ : Player).vy + GRAVITY * (1 / 60) ∧
          (⟨0, 0, 28, 44, 0, 50, false, 1⟩ : Player).vy <
            (update [] noInput (1 / 60) ⟨0, 0, 28, 44, 0, 50, false, 1⟩).vy) ∨
        (update [] noInput (1 / 60) ⟨0, 0, 28, 44, 0, 50, false, 1⟩).vy = 0) :=
  ⟨⟨rfl, by norm_num, rfl, rfl, rfl⟩,
   c8_gravity_monotone [] noInput (1 / 60) ⟨0, 0, 28, 44, 0, 50, false, 1⟩ rfl
     (by norm_num) rfl rfl rfl⟩

/-- C10: at the end of every `update` tick, `onGround = true` implies
`vy = 0`: only the landing branch sets `onGround`, it zeroes `vy` when it
fires, every later branch of the same loop only ever writes `0` to `vy`, and
the post-steps and camera never write `vy`. -/
theorem c10_ground_implies_vy_zero (plats : List Platform) (inp : Input) (dt : ℚ)
    (p : Player) (h : (update plats inp dt p).onGround = true) :
    (update plats inp dt p).vy = 0 := by
  obtain ⟨hvy, hog⟩ := update_vy_onGround plats inp dt p
  rw [hvy]
  rw [hog, resolveCollisions] at h
  rw [resolveCollisions]
  exact foldResolve_ground_vy _ _ _ _ _ _ _ (by simp) h

/-- C10 witness: a tick that lands on the ground platform ends with
`onGround = true` and `vy = 0`. -/
theorem c10_ground_implies_vy_zero_witness :
    (update [⟨-400, 400, 1600, 48⟩] noInput (1 / 60)
        ⟨100, 356, 28, 44, 0, 0, true, 1⟩).onGround = true ∧
      (update [⟨-400, 400, 1600, 48⟩] noInput (1 / 60)
          ⟨100, 356, 28, 44, 0, 0, true, 1⟩).vy = 0 := by
  have hog : (update [⟨-400, 400, 1600, 48⟩] noInput (1 / 60)
      ⟨100, 356, 28, 44, 0, 0, true, 1⟩).onGround = true := by
    norm_num [update, integrate, resolveCollisions, resolveStep, landStep, bumpStep,
      sideSteps, nearPlayer, noInput, GRAVITY, MOVE_ACCEL, MOVE_MAX, FRICTION,
      JUMP_VEL, abs, max_def, min_def, List.filter, List.foldl]
  exact ⟨hog, c10_ground_implies_vy_zero [⟨-400, 400, 1600, 48⟩] noInput (1 / 60)
    ⟨100, 356, 28, 44, 0, 0, true, 1⟩ hog⟩

lemma resolveStep_dt_zero (pw ph px py : ℚ) (p : Platform) (st : ResolveResult)
    (hx : st.nx = px) (hy : st.ny = py) :
    (resolveStep pw ph 0 px py p st).nx = px ∧ (resolveStep pw ph 0 px py p st).ny = py := by
  simp only [resolveStep, sideSteps, bumpStep, landStep, mul_zero, add_zero]
  split_ifs <;> simp_all <;> linarith

lemma foldResolve_dt_zero (pw ph px py : ℚ) (l : List Platform) (st : ResolveResult)
    (hx : st.nx = px) (hy : st.ny = py) :
    (l.foldl (fun s p => resolveStep pw ph 0 px py p s) st).nx = px ∧
      (l.foldl (fun s p => resolveStep pw ph 0 px py p s) st).ny = py := by
  induction l generalizing st with
  | nil => exact ⟨hx, hy⟩
  | cons p l ih =>
    simp only [List.foldl_cons]
    obtain ⟨hx2, hy2⟩ := resolveStep_dt_zero pw ph px py p st hx hy
    exact ih _ hx2 hy2

lemma integrate_xywh (inp : Input) (dt : ℚ) (p : Player) :
    (integrate inp dt p).x = p.x ∧ (integrate inp dt p).y = p.y ∧
      (integrate inp dt p).w = p.w ∧ (integrate inp dt p).h = p.h := by
  simp only [integrate]
  split_ifs <;> exact ⟨rfl, rfl, rfl, rfl⟩

/-- C5 amended: running `update` with `dt = 0` leaves the positions `x` and
`y` unchanged for every pose, input, and platform set (no collision branch
can move the actor at `dt = 0`, and the post-step overwrites coincide).  The
velocities are NOT always preserved — see the counterexample theorem: the
airborne damping `vx *= 0.999` is dt-independent, the speed clamp truncates
any `|vx| > 260`, a pending grounded jump still sets `vy = -720`, and an
exact-contact vertical collision still zeroes `vy`. -/
theorem c5_dt_zero_positions_unchanged (plats : List Platform) (inp : Input) (p : Player) :
    (update plats inp 0 p).x = p.x ∧ (update plats inp 0 p).y = p.y := by
  obtain ⟨hx, hy, hw, hh⟩ := integrate_xywh inp 0 p
  obtain ⟨hrx, hry⟩ := foldResolve_dt_zero (integrate inp 0 p).w (integrate inp 0 p).h
    (integrate inp 0 p).x (integrate inp 0 p).y
    (plats.filter fun q => nearPlayer (integrate inp 0 p).x (integrate inp 0 p).y q)
    ⟨(integrate inp 0 p).x, (integrate inp 0 p).y, (integrate inp 0 p).vx,
      (integrate inp 0 p).vy, false⟩ rfl rfl
  simp only [update, resolveCollisions, mul_zero, add_zero, hrx, hry, sub_self,
    abs_zero]
  have h001 : ¬ ((0 : ℚ) > 1 / 100) := by norm_num
  split_ifs <;> simp_all

/-- C3 amended: the broad-phase filter is behavior-preserving exactly on
states where it discards nothing: whenever every platform's center is within
400 units of the actor's previous center on both axes, `resolveCollisions`
equals the exhaustive loop.  It is NOT behavior-preserving for every pose
within the level — see the counterexample at `(px, py) = (900, 356)` on the
level's own ground platform. -/
theorem c3_filter_equiv_when_all_near (plats : List Platform) (pw ph dt px py vx vy : ℚ)
    (h : ∀ p ∈ plats, nearPlayer px py p = true) :
    resolveCollisions plats pw ph dt px py vx vy =
      resolveCollisionsExhaustive plats pw ph dt px py vx vy := by
  unfold resolveCollisions resolveCollisionsExhaustive
  rw [List.filter_eq_self.mpr h]

/-- C3 amended witness: with the actor at the ground platform's center, the
filter keeps the platform and both resolutions agree. -/
theorem c3_filter_equiv_witness :
    (∀ p ∈ [(⟨-400, 400, 1600, 48⟩ : Platform)], nearPlayer 400 356 p = true) ∧
      resolveCollisions [⟨-400, 400, 1600, 48⟩] 28 44 (1 / 60) 400 356 0 (100 / 3) =
        resolveCollisionsExhaustive [⟨-400, 400, 1600, 48⟩] 28 44 (1 / 60) 400 356 0
          (100 / 3) := by
  have h : ∀ p ∈ [(⟨-400, 400, 1600, 48⟩ : Platform)], nearPlayer 400 356 p = true := by
    intro p hp
    simp only [List.mem_singleton] at hp
    subst hp
    norm_num [nearPlayer, abs, max_def]
  exact ⟨h, c3_filter_equiv_when_all_near [⟨-400, 400, 1600, 48⟩] 28 44 (1 / 60) 400 356 0
    (100 / 3) h⟩

lemma camera_err (p : Player) (dt c : ℚ) :
    cameraUpdate p dt c - camTarget p = (c - camTarget p) * (1 - min 1 (10 * dt)) := by
  unfold cameraUpdate
  ring

lemma camSeq_err (p : Player) (dt c0 : ℚ) (n : ℕ) :
    camSeq p dt c0 n - camTarget p = (c0 - camTarget p) * (1 - min 1 (10 * dt)) ^ n := by
  induction n with
  | zero => simp [camSeq]
  | succ n ih =>
    have hstep : camSeq p dt c0 (n + 1) = cameraUpdate p dt (camSeq p dt c0 n) :=
      Function.iterate_succ_apply' (cameraUpdate p dt) n c0
    rw [hstep, camera_err, ih, pow_succ]
    ring

/-- C9: with the actor stationary and any fixed `dt > 0`, the camera's
distance to the target `actorX + actorW/2 - 320` never increases, the camera
moves monotonically toward the target from either side without overshoot,
and for every `ε > 0` some tick count brings the distance below `ε`. -/
theorem c9_camera_convergence (p : Player) (dt c0 : ℚ) (hdt : 0 < dt) :
    (∀ n, |camSeq p dt c0 (n + 1) - camTarget p| ≤ |camSeq p dt c0 n - camTarget p|) ∧
      (∀ n, c0 ≤ camTarget p →
        camSeq p dt c0 n ≤ camSeq p dt c0 (n + 1) ∧ camSeq p dt c0 n ≤ camTarget p) ∧
      (∀ n, camTarget p ≤ c0 →
        camSeq p dt c0 (n + 1) ≤ camSeq p dt c0 n ∧ camTarget p ≤ camSeq p dt c0 n) ∧
      (∀ ε : ℚ, 0 < ε → ∃ N, |camSeq p dt c0 N - camTarget p| < ε) := by
  have hr0 : 0 < min 1 (10 * dt) := lt_min one_pos (by linarith)
  have hr1 : min 1 (10 * dt) ≤ 1 := min_le_left _ _
  have hq0 : (0 : ℚ) ≤ 1 - min 1 (10 * dt) := by linarith
  have hq1 : 1 - min 1 (10 * dt) < 1 := by linarith
  refine ⟨fun n => ?_, fun n hbelow => ?_, fun n habove => ?_, fun ε hε => ?_⟩
  · rw [camSeq_err, camSeq_err, abs_mul, abs_mul, abs_pow, abs_pow,
      abs_of_nonneg hq0, pow_succ]
    have key : 0 ≤ |c0 - camTarget p| * (1 - min 1 (10 * dt)) ^ n * min 1 (10 * dt) :=
      mul_nonneg (mul_nonneg (abs_nonneg _) (pow_nonneg hq0 n)) hr0.le
    nlinarith [key]
  · have hn := camSeq_err p dt c0 n
    have hn1 := camSeq_err p dt c0 (n + 1)
    rw [pow_succ] at hn1
    have key : 0 ≤ (camTarget p - c0) * (1 - min 1 (10 * dt)) ^ n * min 1 (10 * dt) :=
      mul_nonneg (mul_nonneg (by linarith) (pow_nonneg hq0 n)) hr0.le
    have key2 : 0 ≤ (camTarget p - c0) * (1 - min 1 (10 * dt)) ^ n :=
      mul_nonneg (by linarith) (pow_nonneg hq0 n)
    constructor <;> nlinarith [key, key2]
  · have hn := camSeq_err p dt c0 n
    have hn1 := camSeq_err p dt c0 (n + 1)
    rw [pow_succ] at hn1
    have key : 0 ≤ (c0 - camTarget p) * (1 - min 1 (10 * dt)) ^ n * min 1 (10 * dt) :=
      mul_nonneg (mul_nonneg (by linarith) (pow_nonneg hq0 n)) hr0.le
    have key2 : 0 ≤ (c0 - camTarget p) * (1 - min 1 (10 * dt)) ^ n :=
      mul_nonneg (by linarith) (pow_nonneg hq0 n)
    constructor <;> nlinarith [key, key2]
  · have hd : 0 < |c0 - camTarget p| + 1 := by positivity
    rcases exists_pow_lt_of_lt_one (div_pos hε hd) hq1 with ⟨N, hN⟩
    refine ⟨N, ?_⟩
    rw [camSeq_err, abs_mul, abs_pow, abs_of_nonneg hq0]
    rw [lt_div_iff₀ hd] at hN
    nlinarith [pow_nonneg hq0 N, abs_nonneg (c0 - camTarget p)]

/-- C9 witness: at `dt = 1/60`, camera start `0`, a concrete stationary
actor, some tick count brings the camera within `1/2` of the target. -/
theorem c9_camera_convergence_witness :
    (0 : ℚ) < 1 / 60 ∧
      ∃ N, |camSeq ⟨0, 0, 28, 44, 0, 0, false, 1⟩ (1 / 60) 0 N -
          camTarget ⟨0, 0, 28, 44, 0, 0, false, 1⟩| < 1 / 2 :=
  ⟨by norm_num,
   (c9_camera_convergence ⟨0, 0, 28, 44, 0, 0, false, 1⟩ (1 / 60) 0
     (by norm_num)).2.2.2 (1 / 2) (by norm_num)⟩

lemma rest_tick_fixed (P : Platform) (inp : Input) (dt : ℚ) (pose : Player)
    (hl : inp.left = false) (hr : inp.right = false) (hj : inp.jumpPressed = false)
    (hvx : pose.vx = 0) (hvy : pose.vy = 0) (hrest : pose.y + pose.h = P.y)
    (hog : pose.onGround = true)
    (ho1 : pose.x + pose.w > P.x) (ho2 : pose.x < P.x + P.w)
    (hb1 : |pose.x - (P.x + P.w / 2)| < 400) (hb2 : |pose.y - (P.y + P.h / 2)| < 400)
    (hh : 0 < pose.h) (hPh : 0 < P.h) :
    update [P] inp dt pose = pose := by
  obtain ⟨x, y, w, h, vx, vy, og, fc⟩ := pose
  dsimp only at hvx hvy hrest ho1 ho2 hb1 hb2 hh hog
  subst hvx hvy hog
  have hG : (0 : ℚ) ≤ GRAVITY := by norm_num [GRAVITY]
  have hint : integrate inp dt ⟨x, y, w, h, 0, 0, true, fc⟩ =
      ⟨x, y, w, h, 0, GRAVITY * dt, true, fc⟩ := by
    norm_num [integrate, hl, hr, hj, min_def, max_def, MOVE_MAX]
  have hnear : nearPlayer x y P = true := by
    unfold nearPlayer
    rw [if_pos ⟨hb1, hb2⟩]
  have hfilter : [P].filter (fun q => nearPlayer x y q) = [P] := by
    simp [List.filter, hnear]
  have hres : resolveCollisions [P] w h dt x y 0 (GRAVITY * dt) = ⟨x, y, 0, 0, true⟩ := by
    unfold resolveCollisions
    rw [hfilter]
    simp only [List.foldl_cons, List.foldl_nil]
    unfold resolveStep landStep
    rw [if_pos ⟨ho1, ho2, le_of_eq hrest, by dsimp only; nlinarith [mul_self_nonneg dt, hG]⟩]
    unfold bumpStep
    rw [if_neg (by rintro ⟨-, -, h3, -⟩; linarith)]
    simp only [sideSteps]
    rw [if_neg (by rintro ⟨h1, -⟩; linarith)]
    rw [if_neg (by rintro ⟨h1, -⟩; linarith)]
    have hy : P.y - h = y := by linarith
    simp [ResolveResult.mk.injEq, hy]
  simp only [update, hint, hres]
  norm_num [abs, max_def]

/-- C2 amended: an actor resting on a platform's top (bottom edge on the
platform top, `vx = vy = 0`, `onGround = true`), horizontally overlapping it
and with the platform's center within the 400-unit broad-phase radius of the
actor, is a fixed point of `update` under no input, for any `dt`: repeated
ticks leave the whole pose (in particular `y`, `vy = 0`, `onGround = true`)
unchanged.  The spec's particular scenario is OFF: its actor starts at
`y = 352`, four units above the platform, and its platform
`{x:0,y:400,w:1600}` has center `x = 800`, which is 700 > 400 units from the
actor's `x = 100`, so the platform is discarded by the broad phase and one
tick yields `onGround = false`, `vy = 100/3`, `y = 3173/9` — see the
counterexample theorem. -/
theorem c2_rest_idempotent (P : Platform) (inp : Input) (dt : ℚ) (pose : Player) (n : ℕ)
    (hl : inp.left = false) (hr : inp.right = false) (hj : inp.jumpPressed = false)
    (hvx : pose.vx = 0) (hvy : pose.vy = 0) (hrest : pose.y + pose.h = P.y)
    (hog : pose.onGround = true)
    (ho1 : pose.x + pose.w > P.x) (ho2 : pose.x < P.x + P.w)
    (hb1 : |pose.x - (P.x + P.w / 2)| < 400) (hb2 : |pose.y - (P.y + P.h / 2)| < 400)
    (hh : 0 < pose.h) (hPh : 0 < P.h) :
    (update [P] inp dt)^[n] pose = pose :=
  Function.iterate_fixed
    (rest_tick_fixed P inp dt pose hl hr hj hvx hvy hrest hog ho1 ho2 hb1 hb2 hh hPh) n

/-- C2 amended witness: the actor resting at `y = 356` on the level's real
ground platform (center `x = 400`, within the broad-phase radius of
`x = 100`) is unchanged by three no-input ticks. -/
theorem c2_rest_idempotent_witness :
    (update [⟨-400, 400, 1600, 48⟩] noInput (1 / 60))^[3]
        ⟨100, 356, 28, 44, 0, 0, true, 1⟩ = ⟨100, 356, 28, 44, 0, 0, true, 1⟩ :=
  c2_rest_idempotent ⟨-400, 400, 1600, 48⟩ noInput (1 / 60)
    ⟨100, 356, 28, 44, 0, 0, true, 1⟩ 3 rfl rfl rfl rfl rfl (by norm_num) rfl
    (by norm_num) (by norm_num) (by norm_num [abs, max_def]) (by norm_num [abs, max_def])
    (by norm_num) (by norm_num)

/-- C4 amended: with the actor's right edge exactly 10 units left of the
platform's left face, vertical extents overlapping, and `vx = 200` at
resolution time (initial `vx = 150` plus one tick of right-input
acceleration `3000/60 = 50`), `dt = 1/60`, the tentative right edge advances
only `200/60 = 10/3 < 10` units, so no collision fires that tick: the actor
ends the tick with `x = pose.x + 10/3` (right edge still `20/3` short of the
platform's left face) and `vx = 200`.  The clamp described by the claim
requires the tentative next right edge to pass the platform's left edge
(`vx * dt > 10`), which `vx = 200, dt = 1/60` cannot do. -/
theorem c4_ten_units_no_clamp (P : Platform) (pose : Player)
    (hvx : pose.vx = 150) (hog : pose.onGround = false)
    (hre : pose.x + pose.w = P.x - 10)
    (hv1 : pose.y + pose.h > P.y) (hv2 : pose.y < P.y + P.h)
    (hw : 0 < pose.w) (hPw : 0 < P.w) :
    (update [P] rightInput (1 / 60) pose).x = pose.x + 10 / 3 ∧
      (update [P] rightInput (1 / 60) pose).vx = 200 := by
  obtain ⟨x, y, w, h, vx, vy, og, fc⟩ := pose
  dsimp only at hvx hog hre hv1 hv2 hw
  subst hvx hog
  have hint : integrate rightInput (1 / 60) ⟨x, y, w, h, 150, vy, false, fc⟩ =
      ⟨x, y, w, h, 200, vy + 100 / 3, false, 1⟩ := by
    norm_num [integrate, rightInput, min_def, max_def, MOVE_MAX, MOVE_ACCEL, GRAVITY]
  have hstep : resolveStep w h (1 / 60) x y P ⟨x, y, 200, vy + 100 / 3, false⟩ =
      ⟨x, y, 200, vy + 100 / 3, false⟩ := by
    unfold resolveStep landStep
    rw [if_neg (by rintro ⟨h1, -⟩; dsimp only at h1; linarith)]
    unfold bumpStep
    rw [if_neg (by rintro ⟨h1, -⟩; dsimp only at h1; linarith)]
    simp only [sideSteps]
    rw [if_neg (by rintro ⟨-, -, h3, -⟩; linarith)]
    rw [if_neg (by rintro ⟨-, -, -, h4⟩; linarith)]
  have hres : resolveCollisions [P] w h (1 / 60) x y 200 (vy + 100 / 3) =
      ⟨x, y, 200, vy + 100 / 3, false⟩ := by
    unfold resolveCollisions
    rcases hnp : nearPlayer x y P with hf | ht
    · simp [List.filter, hnp]
    · simp only [List.filter, hnp, List.foldl_cons, List.foldl_nil]
      exact hstep
  simp only [update, hint, hres]
  have hxx : (1 : ℚ) / 100 < |x + 200 * (1 / 60) - x| := by
    rw [show x + 200 * (1 / 60) - x = (10 : ℚ) / 3 by ring]
    norm_num [abs, max_def]
  split_ifs <;> exact ⟨by norm_num, rfl⟩

/-- C4 amended witness: concrete instance of the amended scenario (platform
`{x:138,y:300,w:100,h:48}`, actor at `x = 100`, right edge `128`). -/
theorem c4_ten_units_no_clamp_witness :
    (update [⟨138, 300, 100, 48⟩] rightInput (1 / 60)
        ⟨100, 320, 28, 44, 150, -100 / 3, false, 1⟩).x = 100 + 10 / 3 ∧
      (update [⟨138, 300, 100, 48⟩] rightInput (1 / 60)
          ⟨100, 320, 28, 44, 150, -100 / 3, false, 1⟩).vx = 200 :=
  c4_ten_units_no_clamp ⟨138, 300, 100, 48⟩ ⟨100, 320, 28, 44, 150, -100 / 3, false, 1⟩
    rfl rfl (by norm_num) (by norm_num) (by norm_num) (by norm_num) (by norm_num)

end TinyPlatformer
